import Mathlib

/-!
Shallow embedding, in Lean 4, of the ai-lib JavaScript library
(model registry, task classifier, context manager, LLM client),
together with theorems settling the specification claims about it.

All definitions are transcribed from the JavaScript sources:
  src/ai-lib/models.js, src/ai-lib/taskClassifier.js,
  src/ai-lib/contextManager.js, src/ai-lib/llmClient.js.
JavaScript numbers that are used as exact values (token counts, character
counts) are modelled as Nat; monetary costs and temperatures as Rat.
-/

namespace AiLib

/-! ### JavaScript string primitives -/

/-- Boolean test that the first character list is an initial segment of the
second; used to implement substring containment. -/
def startsWithSeq : List Char → List Char → Bool
  | [], _ => true
  | _ :: _, [] => false
  | a :: as, b :: bs => a == b && startsWithSeq as bs

/-- Boolean substring containment on character lists. -/
def hasSubSeq (needle : List Char) : List Char → Bool
  | [] => startsWithSeq needle []
  | b :: bs => startsWithSeq needle (b :: bs) || hasSubSeq needle bs

/-- Model of the JavaScript expression `hay.includes(needle)`. -/
def jsIncludes (hay needle : String) : Bool :=
  hasSubSeq needle.data hay.data

/-- Model of the JavaScript expression `s.toLowerCase()` (character-wise
lowercasing; coincides with the JavaScript behaviour on ASCII text). -/
def jsToLower (s : String) : String :=
  String.mk (s.data.map Char.toLower)

/-- Model of the JavaScript expression `s.trim()`: strip whitespace from
both ends. -/
def jsTrim (s : String) : String :=
  String.mk
    (((s.data.dropWhile Char.isWhitespace).reverse.dropWhile
        Char.isWhitespace).reverse)

/-- Model of the JavaScript expression `s.substring(0, endIdx)`. -/
def jsSubstringTo (s : String) (endIdx : Nat) : String :=
  String.mk (s.data.take endIdx)

/-- Model of the JavaScript expression `arr.slice(start)` for an integer
`start`: a nonnegative start drops that many leading elements, a negative
start keeps the last `-start` elements (and `-0` behaves like `0`). -/
def jsSliceFrom (l : List α) (start : Int) : List α :=
  if 0 ≤ start then l.drop start.toNat
  else l.drop (l.length - min l.length (-start).toNat)

/-! ### Data model: context messages -/

/-- A role-tagged chat message (`{ role, content }` in the JavaScript code). -/
structure Message where
  role : String
  content : String
  deriving Repr, DecidableEq

instance : Inhabited Message := ⟨⟨"", ""⟩⟩

/-- ContextManager.estimateTokenCount from contextManager.js:
`Math.ceil(text.length / 4)`. -/
def estimateTokenCount (text : String) : Nat :=
  (text.length + 3) / 4

/-- Total of the per-message estimated token counts of a message list
(the quantity the spec bounds for optimizeContext). -/
def sumEstimatedTokens (msgs : List Message) : Nat :=
  (msgs.map (fun m => estimateTokenCount m.content)).sum

/-! ### ContextManager.optimizeContext (contextManager.js lines 81-114)

The JavaScript loop walks `contextMessages` from the last index down to 0,
unshifting each message that still fits the budget, and, at the first
message that does not fit, either unshifts a character-truncated copy
(when more than 100 characters of budget remain) or drops it, then breaks.
We model the loop as structural recursion over the reversed list; the
`totalTokens` accumulator is threaded explicitly. -/

def optimizeLoop (maxContextTokens : Nat) : List Message → Nat → List Message
  | [], _ => []
  | message :: rest, totalTokens =>
    let messageTokens := estimateTokenCount message.content
    if totalTokens + messageTokens ≤ maxContextTokens then
      optimizeLoop maxContextTokens rest (totalTokens + messageTokens) ++ [message]
    else
      let remainingTokens := maxContextTokens - totalTokens
      let maxChars := remainingTokens * 4
      if maxChars > 100 then
        [{ message with content := jsSubstringTo message.content maxChars ++ "..." }]
      else []

/-- ContextManager.optimizeContext.  `Math.floor(maxTokens * 0.7)` is
modelled as `7 * maxTokens / 10` in Nat: for every integer `m` in the
JavaScript safe range the double-precision product `m * 0.7` rounds to a
value with the same floor, because the rounding error is below half an ulp
of `7m/10`.  The model argument is unused by the JavaScript function (its
`config` local is never read), but kept for signature fidelity. -/
def optimizeContext (contextMessages : List Message) (_model : String) (maxTokens : Nat) :
    List Message :=
  let maxContextTokens := 7 * maxTokens / 10
  optimizeLoop maxContextTokens contextMessages.reverse 0

/-! ### Model registry (models.js) -/

/-- TEXT_LENGTH_THRESHOLDS from models.js. -/
structure LengthThresholds where
  SHORT : Nat
  MEDIUM : Nat
  LONG : Nat
  VERY_LONG : Nat

def TEXT_LENGTH_THRESHOLDS : LengthThresholds :=
  { SHORT := 100, MEDIUM := 500, LONG := 1000, VERY_LONG := 2000 }

/-- The `contextConfig` block of a registry entry. -/
structure ContextConfig where
  maxContextMessages : Nat
  maxTokens : Nat
  contextStrategy : String
  deriving Repr, DecidableEq

/-- A MODEL_REGISTRY entry (models.js lines 13-111).  `costPer1kTokens` is
an exact rational standing for the JavaScript decimal literal.  The
`bestFor` list is omitted: no claim mentions it. -/
structure ModelConfig where
  provider : String
  name : String
  maxTokens : Nat
  costPer1kTokens : Rat
  speed : String
  quality : String
  capabilities : List String
  contextConfig : ContextConfig
  deriving Repr, DecidableEq

/-- Registry entry for llama3-8b-8192; named because getModelConfig falls
back to it for unknown identifiers. -/
def llama3_8b_8192Config : ModelConfig :=
  { provider := "groq", name := "Llama 3 8B", maxTokens := 8192
    costPer1kTokens := 5 / 100000   -- 0.00005 USD
    speed := "fast", quality := "good"
    capabilities := ["chat", "analysis", "summarization"]
    contextConfig :=
      { maxContextMessages := 3, maxTokens := 4000, contextStrategy := "recent" } }

/-- MODEL_REGISTRY from models.js, as an ordered association list. -/
def MODEL_REGISTRY : List (String × ModelConfig) :=
  [ ("llama3-8b-8192", llama3_8b_8192Config),
    ("llama3-70b-8192",
      { provider := "groq", name := "Llama 3 70B", maxTokens := 8192
        costPer1kTokens := 59 / 100000   -- 0.00059 USD
        speed := "medium", quality := "excellent"
        capabilities := ["chat", "analysis", "summarization", "creation", "ideation"]
        contextConfig :=
          { maxContextMessages := 6, maxTokens := 8000, contextStrategy := "smart" } }),
    ("mixtral-8x7b-32768",
      { provider := "groq", name := "Mixtral 8x7B", maxTokens := 32768
        costPer1kTokens := 24 / 100000   -- 0.00024 USD
        speed := "medium", quality := "excellent"
        capabilities := ["chat", "analysis", "summarization", "creation", "ideation",
          "conversion"]
        contextConfig :=
          { maxContextMessages := 8, maxTokens := 16000,
            contextStrategy := "comprehensive" } }),
    ("gpt-4",
      { provider := "openai", name := "GPT-4", maxTokens := 8192
        costPer1kTokens := 3 / 100   -- 0.03 USD (input)
        speed := "medium", quality := "excellent"
        capabilities := ["chat", "analysis", "summarization", "creation", "ideation",
          "conversion"]
        contextConfig :=
          { maxContextMessages := 10, maxTokens := 6000,
            contextStrategy := "comprehensive" } }),
    ("claude-3-sonnet",
      { provider := "anthropic", name := "Claude 3 Sonnet", maxTokens := 200000
        costPer1kTokens := 3 / 100   -- 0.03 USD
        speed := "medium", quality := "excellent"
        capabilities := ["chat", "analysis", "summarization", "creation", "ideation",
          "conversion"]
        contextConfig :=
          { maxContextMessages := 12, maxTokens := 100000,
            contextStrategy := "comprehensive" } }) ]

/-- The complexity buckets used throughout the library. -/
inductive Complexity
  | SHORT
  | MEDIUM
  | LONG
  | VERY_LONG
  deriving Repr, DecidableEq

/-- The four supported model-selection strategies (MODEL_SELECTION_STRATEGIES
keys in models.js; the ModelManager constructor falls back to BALANCED for
any other key, so the supported strategies are exactly these). -/
inductive SelectionStrategy
  | COST_OPTIMIZED
  | QUALITY_OPTIMIZED
  | SPEED_OPTIMIZED
  | BALANCED
  deriving Repr, DecidableEq

/-- MODEL_SELECTION_STRATEGIES from models.js lines 122-151: each strategy
is a total map from complexity bucket to model identifier. -/
def MODEL_SELECTION_STRATEGIES : SelectionStrategy → Complexity → String
  | .COST_OPTIMIZED, .SHORT => "llama3-8b-8192"
  | .COST_OPTIMIZED, .MEDIUM => "llama3-8b-8192"
  | .COST_OPTIMIZED, .LONG => "llama3-70b-8192"
  | .COST_OPTIMIZED, .VERY_LONG => "llama3-70b-8192"
  | .QUALITY_OPTIMIZED, .SHORT => "llama3-70b-8192"
  | .QUALITY_OPTIMIZED, .MEDIUM => "llama3-70b-8192"
  | .QUALITY_OPTIMIZED, .LONG => "mixtral-8x7b-32768"
  | .QUALITY_OPTIMIZED, .VERY_LONG => "claude-3-sonnet"
  | .SPEED_OPTIMIZED, .SHORT => "llama3-8b-8192"
  | .SPEED_OPTIMIZED, .MEDIUM => "llama3-8b-8192"
  | .SPEED_OPTIMIZED, .LONG => "llama3-8b-8192"
  | .SPEED_OPTIMIZED, .VERY_LONG => "llama3-70b-8192"
  | .BALANCED, .SHORT => "llama3-8b-8192"
  | .BALANCED, .MEDIUM => "llama3-70b-8192"
  | .BALANCED, .LONG => "mixtral-8x7b-32768"
  | .BALANCED, .VERY_LONG => "llama3-70b-8192"

/-- ModelManager.getModelForComplexity: `this.models[complexity] ||
this.models.SHORT`.  For the defined complexity buckets the lookup always
succeeds, so the `|| SHORT` fallback (reachable only for undefined bucket
names in JavaScript) never fires. -/
def getModelForComplexity (strategy : SelectionStrategy) (complexity : Complexity) :
    String :=
  MODEL_SELECTION_STRATEGIES strategy complexity

/-- ModelManager.getModelConfig:
`MODEL_REGISTRY[modelId] || MODEL_REGISTRY["llama3-8b-8192"]`. -/
def getModelConfig (modelId : String) : ModelConfig :=
  (MODEL_REGISTRY.lookup modelId).getD llama3_8b_8192Config

/-- ModelManager.estimateCost (models.js lines 191-196).  Token counts are
rationals, standing for the JavaScript numbers. -/
def estimateCost (modelId : String) (inputTokens : Rat) (outputTokens : Rat) :
    Rat :=
  let config := getModelConfig modelId
  let inputCost := (inputTokens / 1000) * config.costPer1kTokens
  let outputCost := (outputTokens / 1000) * (config.costPer1kTokens * 2)
  inputCost + outputCost

/-! ### ContextManager message selection (contextManager.js lines 21-78) -/

/-- ContextManager.selectRecentMessages: `messages.slice(-maxContextMessages)`. -/
def selectRecentMessages (messages : List Message) (maxContextMessages : Nat) :
    List Message :=
  jsSliceFrom messages (-(maxContextMessages : Int))

/-- ContextManager.selectSmartMessages: on overflow, first message plus
`messages.slice(-maxContextMessages + 1)`. -/
def selectSmartMessages (messages : List Message) (maxContextMessages : Nat) :
    List Message :=
  if messages.length ≤ maxContextMessages then messages
  else
    let recentMessages := jsSliceFrom messages (-(maxContextMessages : Int) + 1)
    let firstMessage := messages.headD default
    firstMessage :: recentMessages

/-- ContextManager.selectComprehensiveMessages: on overflow, first message,
middle message (`messages[Math.floor(messages.length / 2)]`) and
`messages.slice(-maxContextMessages + 2)`. -/
def selectComprehensiveMessages (messages : List Message) (maxContextMessages : Nat) :
    List Message :=
  if messages.length ≤ maxContextMessages then messages
  else
    let first := messages.headD default
    let middle := messages.getD (messages.length / 2) default
    let recent := jsSliceFrom messages (-(maxContextMessages : Int) + 2)
    first :: middle :: recent

/-- ContextManager.selectMinimalMessages:
`messages.slice(-Math.min(maxContextMessages, 2))`. -/
def selectMinimalMessages (messages : List Message) (maxContextMessages : Nat) :
    List Message :=
  let minimalCount := min maxContextMessages 2
  jsSliceFrom messages (-(minimalCount : Int))

/-- ContextManager.selectContextMessages: dispatch on the strategy read
from the model configuration, defaulting to the recent strategy. -/
def selectContextMessages (messages : List Message) (model : String)
    (maxContextMessages : Nat) : List Message :=
  if messages = [] then []
  else
    let config := getModelConfig model
    let strategy := config.contextConfig.contextStrategy
    if strategy = "recent" then selectRecentMessages messages maxContextMessages
    else if strategy = "smart" then selectSmartMessages messages maxContextMessages
    else if strategy = "comprehensive" then
      selectComprehensiveMessages messages maxContextMessages
    else if strategy = "minimal" then selectMinimalMessages messages maxContextMessages
    else selectRecentMessages messages maxContextMessages

/-! ### ContextManager.processChatHistory (contextManager.js lines 134-147) -/

/-- A chat-history turn: a user text plus an optional response text.
A missing `response` property or a present-but-empty one are both falsy
in the JavaScript test `if (msg.response)`. -/
structure ChatTurn where
  user : String
  response : Option String
  deriving Repr, DecidableEq

/-- The chat-history record `{ messages: [...] }`. -/
structure ChatHistory where
  messages : List ChatTurn
  deriving Repr, DecidableEq

/-- The body of the processChatHistory loop: each turn pushes a user
message and, when `msg.response` is truthy (present and non-empty),
an assistant message. -/
def processTurns : List ChatTurn → List Message
  | [] => []
  | msg :: rest =>
    (Message.mk "user" msg.user ::
        match msg.response with
        | some r => if r = "" then [] else [Message.mk "assistant" r]
        | none => []) ++
      processTurns rest

/-- ContextManager.processChatHistory: a null history yields no messages. -/
def processChatHistory (chatHistory : Option ChatHistory) : List Message :=
  match chatHistory with
  | none => []
  | some h => processTurns h.messages

/-! ### Task classification (taskClassifier.js) -/

/-- A TASK_TYPES entry.  The `name`, `description`, `maxTokens` and
`temperature` fields are not consulted by any claim; only the keyword
list drives determineTaskType, so the entry is projected to it. -/
structure TaskConfig where
  keywords : List String
  deriving Repr, DecidableEq

/-- TASK_TYPES from taskClassifier.js lines 7-82, in registration order. -/
def TASK_TYPES : List (String × TaskConfig) :=
  [ ("LLM_Summary",
      ⟨["summary", "summarise", "summarize", "condense", "brief", "overview"]⟩),
    ("LLM_Creation",
      ⟨["create", "generate", "write", "compose", "craft", "develop"]⟩),
    ("LLM_Ideation",
      ⟨["ideate", "brainstorm", "suggest", "ideas", "options", "alternatives"]⟩),
    ("LLM_Analysis",
      ⟨["analyze", "analyse", "analysis", "explain", "compare", "evaluate",
        "assess", "examine", "study", "review"]⟩),
    ("LLM_Converter",
      ⟨["convert", "transform", "translate", "reformat", "adapt", "modify"]⟩),
    ("LLM_Default", ⟨[]⟩) ]

/-- The analytical keyword list of TextComplexityAnalyzer.analyze
(taskClassifier.js lines 131-144). -/
def analyticalKeywords : List String :=
  ["analyze", "analyse", "compare", "evaluate", "summarize", "summarise",
   "explain", "discuss", "research", "study", "review", "assess"]

/-- The test `analyticalKeywords.some(k => text.toLowerCase().includes(k))`. -/
def hasAnalyticalContent (text : String) : Bool :=
  analyticalKeywords.any (fun keyword => jsIncludes (jsToLower text) keyword)

/-- The complexity field of TextComplexityAnalyzer.analyze
(taskClassifier.js lines 86-166).  The human-readable reason string and
the stats record are not modelled: no claim refers to them.  The guard
`!text` is true exactly for the empty string once `text` is a string. -/
def analyze (text : String) : Complexity :=
  if text = "" then .SHORT
  else
    let length := text.length
    let complexity : Complexity :=
      if length ≤ TEXT_LENGTH_THRESHOLDS.SHORT then .SHORT
      else if length ≤ TEXT_LENGTH_THRESHOLDS.MEDIUM then .MEDIUM
      else if length ≤ TEXT_LENGTH_THRESHOLDS.LONG then .LONG
      else .VERY_LONG
    if hasAnalyticalContent text = true ∧ complexity = .SHORT then .MEDIUM
    else complexity

/-- TaskClassifier.determineTaskType (taskClassifier.js lines 245-261):
scan the non-default tasks in registration order and return the first one
with a keyword occurring in the lowercased, trimmed query. -/
def determineTaskType (queryText : String) : String :=
  let query := jsTrim (jsToLower queryText)
  match TASK_TYPES.find?
      (fun t => t.1 != "LLM_Default" && t.2.keywords.any (fun k => jsIncludes query k)) with
  | some t => t.1
  | none => "LLM_Default"

/-- TaskClassifier.getModelForTask (taskClassifier.js lines 263-267):
always llama3-8b-8192, whatever the task and complexity. -/
def getModelForTask (_task : String) (_complexity : Complexity) : String :=
  "llama3-8b-8192"

/-- Outcome of the single outbound classification fetch inside
classifyQuery: the transport throws, the response is non-2xx, the 2xx
payload has no usable `choices`, or it carries a content string. -/
inductive ClassifyOutcome
  | thrown (message : String)
  | respNotOk
  | respOkNoChoices
  | respOkContent (content : String)
  deriving Repr, DecidableEq

/-- A classification outcome that fails to produce usable content. -/
def ClassifyOutcome.failing : ClassifyOutcome → Bool
  | .respOkContent _ => false
  | _ => true

/-- The classification record returned by classifyQuery (the reason and
stats fields are not modelled: no claim refers to them). -/
structure Classification where
  task : String
  model : String
  complexity : Complexity
  deriving Repr, DecidableEq

/-- TaskClassifier.classifyQuery (taskClassifier.js lines 176-242).
The outbound fetch is modelled by the `outcome` oracle, consulted only on
the branch where no keyword matched.  The empty-query guard `!queryText`
returns the default task with the strategy-resolved SHORT model. -/
def classifyQuery (strategy : SelectionStrategy) (queryText : String)
    (outcome : ClassifyOutcome) : Classification :=
  if queryText = "" then
    { task := "LLM_Default"
      model := getModelForComplexity strategy .SHORT
      complexity := .SHORT }
  else
    let complexity := analyze queryText
    let task0 := determineTaskType queryText
    let task :=
      if task0 = "LLM_Default" then
        match outcome with
        | .thrown _ => "LLM_Default"
        | .respNotOk => task0
        | .respOkNoChoices => task0
        | .respOkContent content => jsTrim content
      else task0
    { task := task
      model := getModelForTask task complexity
      complexity := complexity }

/-- Number of outbound classification calls classifyQuery makes for a
given query: one exactly when the query is non-empty and no task keyword
matched, zero otherwise. -/
def classifyOutboundCalls (queryText : String) : Nat :=
  if queryText = "" then 0
  else if determineTaskType queryText = "LLM_Default" then 1 else 0

/-! ### LLMClient (llmClient.js) -/

/-- The request-parameter record passed to LLMClient.callLLM.  The
complexity travels as an opaque string, as in the JavaScript code. -/
structure LLMParams where
  model : String
  messages : List Message
  maxTokens : Nat
  temperature : Rat
  task : String
  complexity : String
  reason : String
  contextMessages : List Message
  deriving Repr, DecidableEq

/-- Outcome of the single fetch performed by callLLM: the transport throws,
the response is non-2xx (carrying its error text), the 2xx body fails to
parse as JSON (`response.json()` throws, caught by the same handler), or a
JSON payload is obtained.  The payload is kept opaque as its serialized
form. -/
inductive FetchOutcome
  | thrown (message : String)
  | respNotOk (errorText : String)
  | respOkBadJson (message : String)
  | respOk (result : String)
  deriving Repr, DecidableEq

/-- The normalized envelope returned by callLLM: either the provider
payload (success) or an error code and detail text, plus the request
metadata and the success flag. -/
structure Envelope where
  payload : Option String
  error : Option String
  details : Option String
  temperature : Rat
  model : String
  task : String
  complexity : String
  reason : String
  contextMessages : Nat
  success : Bool
  deriving Repr, DecidableEq

/-- LLMClient.createSuccessResponse (llmClient.js lines 139-150). -/
def createSuccessResponse (result : String) (params : LLMParams) : Envelope :=
  { payload := some result
    error := none
    details := none
    temperature := params.temperature
    model := params.model
    task := params.task
    complexity := params.complexity
    reason := params.reason
    contextMessages := params.contextMessages.length
    success := true }

/-- LLMClient.createErrorResponse (llmClient.js lines 153-165). -/
def createErrorResponse (error details : String) (params : LLMParams) : Envelope :=
  { payload := none
    error := some error
    details := some details
    temperature := params.temperature
    model := params.model
    task := params.task
    complexity := params.complexity
    reason := params.reason
    contextMessages := params.contextMessages.length
    success := false }

/-- LLMClient.getProviderFromModel (llmClient.js lines 127-136). -/
def getProviderFromModel (model : String) : String :=
  if jsIncludes model "llama" || jsIncludes model "mixtral" then "groq"
  else if jsIncludes model "gpt" then "openai"
  else if jsIncludes model "claude" then "anthropic"
  else "groq"

/-- LLMClient.callLLM (llmClient.js lines 69-124), as a total function of
the request parameters and the fetch outcome: a non-2xx response yields the
"LLM call failed" error envelope with the response text, any caught
exception (transport or JSON parsing) yields the "LLM call error" envelope
with the exception message, and a 2xx JSON payload yields the success
envelope.  Totality of this function is the "never throws" property.
The provider and endpoint resolution preceding the fetch does not affect
the returned envelope. -/
def callLLM (params : LLMParams) (fetch : FetchOutcome) : Envelope :=
  match fetch with
  | .thrown message => createErrorResponse "LLM call error" message params
  | .respNotOk errorText => createErrorResponse "LLM call failed" errorText params
  | .respOkBadJson message => createErrorResponse "LLM call error" message params
  | .respOk result => createSuccessResponse result params

/-! ### Helper lemmas -/

theorem sumEstimatedTokens_append (l1 l2 : List Message) :
    sumEstimatedTokens (l1 ++ l2) = sumEstimatedTokens l1 + sumEstimatedTokens l2 := by
  simp [sumEstimatedTokens]

theorem length_jsSubstringTo (s : String) (n : Nat) :
    (jsSubstringTo s n).length = min n s.length := by
  cases s with
  | mk d =>
    show (d.take n).length = min n d.length
    exact List.length_take n d

/-- Budget invariant of the optimizeContext loop: starting from an
accumulated total within the budget, the tokens of the returned messages
plus the accumulated total stay within budget + 1 (the slack of one token
comes from the appended three-character ellipsis in the truncation
branch). -/
theorem optimizeLoop_sum_le (budget : Nat) (msgs : List Message) :
    ∀ total, total ≤ budget →
      sumEstimatedTokens (optimizeLoop budget msgs total) + total ≤ budget + 1 := by
  induction msgs with
  | nil =>
    intro total h
    simp only [optimizeLoop, sumEstimatedTokens, List.map_nil, List.sum_nil]
    omega
  | cons m rest ih =>
    intro total h
    simp only [optimizeLoop]
    by_cases hfit : total + estimateTokenCount m.content ≤ budget
    · rw [if_pos hfit, sumEstimatedTokens_append]
      have hrec := ih (total + estimateTokenCount m.content) hfit
      simp only [sumEstimatedTokens, List.map_cons, List.map_nil, List.sum_cons,
        List.sum_nil] at hrec ⊢
      omega
    · rw [if_neg hfit]
      by_cases hchars : (budget - total) * 4 > 100
      · rw [if_pos hchars]
        have hlen : estimateTokenCount
            (jsSubstringTo m.content ((budget - total) * 4) ++ "...") =
            (min ((budget - total) * 4) m.content.length + 3 + 3) / 4 := by
          simp [estimateTokenCount, String.length_append, length_jsSubstringTo,
            show ("..." : String).length = 3 from rfl]
        simp only [sumEstimatedTokens, List.map_cons, List.map_nil, List.sum_cons,
          List.sum_nil, hlen]
        omega
      · rw [if_neg hchars]
        simp only [sumEstimatedTokens, List.map_nil, List.sum_nil]
        omega

/-- C1, counterexample.  On a single 113-character message with a
40-token budget, optimizeContext enters the character-truncation branch
(cap 28 tokens, 112 characters of space remain, the ellipsis is appended)
and returns one message of 115 characters, estimated at 29 tokens:
10 * 29 = 290 > 280 = 7 * 40, so the returned total exceeds 70 percent of
the supplied token budget. -/
theorem optimizeContext_cap_cex :
    ¬ (10 * sumEstimatedTokens
          (optimizeContext [⟨"user", String.mk (List.replicate 113 'a')⟩]
            "llama3-8b-8192" 40) ≤ 7 * 40) := by
  decide

/-- C1, amended.  For every message list, model identifier and token
budget, the total of the per-message estimated token counts returned by
optimizeContext is at most floor(0.7 * maxTokens) + 1: the truncation
branch can exceed the 70 percent cap, but by at most one token. -/
theorem optimizeContext_total_le_cap_succ (msgs : List Message) (model : String)
    (maxTokens : Nat) :
    sumEstimatedTokens (optimizeContext msgs model maxTokens) ≤
      7 * maxTokens / 10 + 1 := by
  have h := optimizeLoop_sum_le (7 * maxTokens / 10) msgs.reverse 0 (Nat.zero_le _)
  simpa [optimizeContext] using h

/-- C2.  The complexity assigned by TextComplexityAnalyzer.analyze is
determined by the length thresholds (at most 100 characters SHORT, at most
500 MEDIUM, at most 1000 LONG, otherwise VERY_LONG), with SHORT upgraded
to MEDIUM exactly when the lowercased text contains an analytical keyword;
so a text of at most 100 characters is SHORT without such a keyword and
MEDIUM with one. -/
theorem analyze_complexity_buckets (text : String) :
    (text.length ≤ 100 → hasAnalyticalContent text = false →
      analyze text = .SHORT) ∧
    (text.length ≤ 100 → hasAnalyticalContent text = true →
      analyze text = .MEDIUM) ∧
    (100 < text.length → text.length ≤ 500 → analyze text = .MEDIUM) ∧
    (500 < text.length → text.length ≤ 1000 → analyze text = .LONG) ∧
    (1000 < text.length → analyze text = .VERY_LONG) := by
  by_cases h0 : text = ""
  · subst h0; decide
  · simp only [analyze, if_neg h0, TEXT_LENGTH_THRESHOLDS]
    refine ⟨?_, ?_, ?_, ?_, ?_⟩ <;> intros <;> split_ifs <;>
      simp_all <;> omega

/-- C2, witness: a keyword-free short text is SHORT, and a short text with
the analytical keyword analyze is upgraded to MEDIUM. -/
theorem analyze_complexity_buckets_witness :
    analyze "What is 2 plus 2" = .SHORT ∧ analyze "analyze my data" = .MEDIUM :=
  ⟨(analyze_complexity_buckets "What is 2 plus 2").1 (by decide) (by decide),
   (analyze_complexity_buckets "analyze my data").2.1 (by decide) (by decide)⟩

/-! ### C3: message selection under each strategy -/

/-- The last k elements of a list (all of it when k exceeds the length):
the spec reading of a negative-index slice. -/
def lastN (l : List α) (k : Nat) : List α :=
  l.drop (l.length - k)

/-- For a positive count k, the JavaScript slice(-k) keeps the last k
elements. -/
theorem jsSliceFrom_negNat (l : List α) (k : Nat) (hk : 1 ≤ k) :
    jsSliceFrom l (-(k : Int)) = lastN l k := by
  unfold jsSliceFrom lastN
  rw [if_neg (by omega : ¬ (0 : Int) ≤ -(k : Int)), neg_neg, Int.toNat_natCast]
  congr 1
  omega

/-- C3, counterexample.  Under the smart strategy with
maxContextMessages = 1 and a two-message list (longer than 1), the
JavaScript slice(-1 + 1) = slice(0) keeps the whole list, so the result
has three messages, contradicting both the claimed first + last N-1 shape
and the claimed at-most-N bound. -/
theorem selectSmart_overflow_cex :
    ¬ ((selectSmartMessages [⟨"user", "a"⟩, ⟨"user", "b"⟩] 1).length ≤ 1) := by
  decide

/-- C3, amended.  On a list longer than N: the recent strategy returns the
last N messages and the minimal strategy the last min(N, 2) whenever
N ≥ 1; the smart strategy returns the first message followed by the last
N-1 (N messages in all) whenever N ≥ 2; and the comprehensive strategy
returns the first message, the middle message (index floor(length/2)) and
the last N-2 (N messages in all) whenever N ≥ 3.  For smaller N the
slice(-N + k) expression degenerates to slice(0) or a positive index and
the claimed shapes and the at-most-N bound fail. -/
theorem selectStrategies_overflow_spec (msgs : List Message) (N : Nat)
    (hlen : N < msgs.length) :
    (1 ≤ N → selectRecentMessages msgs N = lastN msgs N ∧
      (selectRecentMessages msgs N).length = N) ∧
    (2 ≤ N → selectSmartMessages msgs N =
        msgs.headD default :: lastN msgs (N - 1) ∧
      (selectSmartMessages msgs N).length = N) ∧
    (3 ≤ N → selectComprehensiveMessages msgs N =
        msgs.headD default :: msgs.getD (msgs.length / 2) default ::
          lastN msgs (N - 2) ∧
      (selectComprehensiveMessages msgs N).length = N) ∧
    (1 ≤ N → selectMinimalMessages msgs N = lastN msgs (min N 2) ∧
      (selectMinimalMessages msgs N).length = min N 2) := by
  refine ⟨?_, ?_, ?_, ?_⟩ <;> intro hN
  · have he : selectRecentMessages msgs N = lastN msgs N := by
      unfold selectRecentMessages
      exact jsSliceFrom_negNat msgs N hN
    refine ⟨he, ?_⟩
    rw [he]; unfold lastN
    rw [List.length_drop]; omega
  · have hcast : -(N : Int) + 1 = -((N - 1 : Nat) : Int) := by
      have : ((N - 1 : Nat) : Int) = (N : Int) - 1 := by
        rw [Nat.cast_sub (by omega)]; rfl
      rw [this]; ring
    have he : selectSmartMessages msgs N =
        msgs.headD default :: lastN msgs (N - 1) := by
      unfold selectSmartMessages
      rw [if_neg (by omega), hcast, jsSliceFrom_negNat msgs (N - 1) (by omega)]
    refine ⟨he, ?_⟩
    rw [he]; unfold lastN
    rw [List.length_cons, List.length_drop]; omega
  · have hcast : -(N : Int) + 2 = -((N - 2 : Nat) : Int) := by
      have : ((N - 2 : Nat) : Int) = (N : Int) - 2 := by
        rw [Nat.cast_sub (by omega)]; rfl
      rw [this]; ring
    have he : selectComprehensiveMessages msgs N =
        msgs.headD default :: msgs.getD (msgs.length / 2) default ::
          lastN msgs (N - 2) := by
      unfold selectComprehensiveMessages
      rw [if_neg (by omega), hcast, jsSliceFrom_negNat msgs (N - 2) (by omega)]
    refine ⟨he, ?_⟩
    rw [he]; unfold lastN
    rw [List.length_cons, List.length_cons, List.length_drop]; omega
  · have he : selectMinimalMessages msgs N = lastN msgs (min N 2) := by
      unfold selectMinimalMessages
      exact jsSliceFrom_negNat msgs (min N 2) (by omega)
    refine ⟨he, ?_⟩
    rw [he]; unfold lastN
    rw [List.length_drop]; omega

/-- Concrete four-message list used to witness the selection theorem. -/
def witnessMsgs : List Message :=
  [⟨"user", "m0"⟩, ⟨"user", "m1"⟩, ⟨"user", "m2"⟩, ⟨"user", "m3"⟩]

/-- C3, witness: the amended selection shapes at a four-message list with
N = 3 under all four strategies. -/
theorem selectStrategies_overflow_spec_witness :
    (selectRecentMessages witnessMsgs 3 = lastN witnessMsgs 3 ∧
      (selectRecentMessages witnessMsgs 3).length = 3) ∧
    (selectSmartMessages witnessMsgs 3 =
        witnessMsgs.headD default :: lastN witnessMsgs 2 ∧
      (selectSmartMessages witnessMsgs 3).length = 3) ∧
    (selectComprehensiveMessages witnessMsgs 3 =
        witnessMsgs.headD default :: witnessMsgs.getD 2 default ::
          lastN witnessMsgs 1 ∧
      (selectComprehensiveMessages witnessMsgs 3).length = 3) ∧
    (selectMinimalMessages witnessMsgs 3 = lastN witnessMsgs 2 ∧
      (selectMinimalMessages witnessMsgs 3).length = 2) :=
  have h := selectStrategies_overflow_spec witnessMsgs 3 (by decide)
  ⟨h.1 (by decide), h.2.1 (by decide), h.2.2.1 (by decide), h.2.2.2 (by decide)⟩

/-! ### C4: callLLM envelope normalization -/

/-- C4.  callLLM is a total function of the request parameters and the
fetch outcome (the embedding of: it never throws).  Its result carries the
request metadata unchanged; it is the success envelope merging the
provider payload exactly when the transport returned a 2xx JSON payload,
and otherwise the error envelope carrying the error text (the response
text on a non-2xx status, the exception message on a caught transport or
parsing exception). -/
theorem callLLM_envelope_spec (params : LLMParams) (fetch : FetchOutcome) :
    ((callLLM params fetch).success = true ↔ ∃ result, fetch = .respOk result) ∧
    (callLLM params fetch).model = params.model ∧
    (callLLM params fetch).task = params.task ∧
    (callLLM params fetch).temperature = params.temperature ∧
    (callLLM params fetch).complexity = params.complexity ∧
    (callLLM params fetch).reason = params.reason ∧
    (callLLM params fetch).contextMessages = params.contextMessages.length ∧
    (∀ message, fetch = .thrown message →
      callLLM params fetch = createErrorResponse "LLM call error" message params) ∧
    (∀ errorText, fetch = .respNotOk errorText →
      callLLM params fetch = createErrorResponse "LLM call failed" errorText params) ∧
    (∀ message, fetch = .respOkBadJson message →
      callLLM params fetch = createErrorResponse "LLM call error" message params) ∧
    (∀ result, fetch = .respOk result →
      callLLM params fetch = createSuccessResponse result params) := by
  cases fetch <;>
    simp [callLLM, createErrorResponse, createSuccessResponse]

/-- Concrete request parameters used to witness the callLLM theorem. -/
def witnessParams : LLMParams :=
  { model := "llama3-8b-8192"
    messages := [⟨"user", "Hello"⟩]
    maxTokens := 100
    temperature := 3 / 10
    task := "LLM_Default"
    complexity := "SHORT"
    reason := "Test"
    contextMessages := [] }

/-- C4, witness: a call whose transport throws yields the error envelope
with success false, and no exception escapes (the function is total). -/
theorem callLLM_envelope_spec_witness :
    callLLM witnessParams (.thrown "network down") =
      createErrorResponse "LLM call error" "network down" witnessParams ∧
    (callLLM witnessParams (.thrown "network down")).success = false :=
  have h := callLLM_envelope_spec witnessParams (.thrown "network down")
  ⟨h.2.2.2.2.2.2.2.1 "network down" rfl, by
    have h1 := h.2.2.2.2.2.2.2.1 "network down" rfl
    rw [h1]; rfl⟩

/-! ### C5: classifier fallback to the default task -/

/-- C5.  For a non-empty query in which no keyword of any non-default task
occurs (in the lowercased, trimmed text), classifyQuery makes exactly one
outbound classification call, and on every failing outcome of that call
(transport exception, non-2xx response, or a 2xx response without usable
content) the returned task is LLM_Default. -/
theorem classifyQuery_no_keyword_fallback (strategy : SelectionStrategy)
    (queryText : String) (outcome : ClassifyOutcome)
    (hne : queryText ≠ "")
    (hkw : ∀ p ∈ TASK_TYPES, p.1 ≠ "LLM_Default" →
      ∀ k ∈ p.2.keywords, jsIncludes (jsTrim (jsToLower queryText)) k = false) :
    classifyOutboundCalls queryText = 1 ∧
      (outcome.failing = true →
        (classifyQuery strategy queryText outcome).task = "LLM_Default") := by
  have hdet : determineTaskType queryText = "LLM_Default" := by
    unfold determineTaskType
    have hnone : TASK_TYPES.find?
        (fun t => t.1 != "LLM_Default" &&
          t.2.keywords.any (fun k => jsIncludes (jsTrim (jsToLower queryText)) k)) =
        none := by
      rw [List.find?_eq_none]
      intro p hp
      by_cases hdef : p.1 = "LLM_Default"
      · simp [hdef]
      · simp only [Bool.and_eq_true, bne_iff_ne, ne_eq, not_and, Bool.not_eq_true]
        intro _
        rw [List.any_eq_false]
        intro k hk
        simp [hkw p hp hdef k hk]
    simp [hnone]
  refine ⟨by simp [classifyOutboundCalls, hne, hdet], ?_⟩
  intro hfail
  cases outcome <;> simp_all [classifyQuery, hne, hdet, ClassifyOutcome.failing]

/-- C5, witness: the query "hello there" matches no task keyword, triggers
exactly one outbound classification call, and a non-2xx outcome of that
call yields the default task. -/
theorem classifyQuery_no_keyword_fallback_witness :
    classifyOutboundCalls "hello there" = 1 ∧
      (ClassifyOutcome.respNotOk.failing = true →
        (classifyQuery .BALANCED "hello there" .respNotOk).task = "LLM_Default") :=
  classifyQuery_no_keyword_fallback .BALANCED "hello there" .respNotOk
    (by decide) (by decide)

/-! ### C6: provider resolution from the model identifier -/

/-- C6.  getProviderFromModel implements the substring cascade of
llmClient.js: identifiers containing llama or mixtral resolve to groq;
otherwise gpt resolves to openai; otherwise claude to anthropic; every
remaining identifier defaults to groq.  In particular gpt-4 maps to
openai, claude-3-sonnet to anthropic and llama3-8b-8192 to groq. -/
theorem getProviderFromModel_spec (model : String) :
    (jsIncludes model "llama" = true ∨ jsIncludes model "mixtral" = true →
      getProviderFromModel model = "groq") ∧
    (jsIncludes model "llama" = false → jsIncludes model "mixtral" = false →
      jsIncludes model "gpt" = true → getProviderFromModel model = "openai") ∧
    (jsIncludes model "llama" = false → jsIncludes model "mixtral" = false →
      jsIncludes model "gpt" = false → jsIncludes model "claude" = true →
      getProviderFromModel model = "anthropic") ∧
    (jsIncludes model "llama" = false → jsIncludes model "mixtral" = false →
      jsIncludes model "gpt" = false → jsIncludes model "claude" = false →
      getProviderFromModel model = "groq") ∧
    getProviderFromModel "gpt-4" = "openai" ∧
    getProviderFromModel "claude-3-sonnet" = "anthropic" ∧
    getProviderFromModel "llama3-8b-8192" = "groq" := by
  refine ⟨?_, ?_, ?_, ?_, by decide, by decide, by decide⟩ <;>
    intros <;> simp_all [getProviderFromModel]

/-- C6, witness: an identifier containing mixtral resolves to groq. -/
theorem getProviderFromModel_spec_witness :
    getProviderFromModel "mixtral-8x7b-32768" = "groq" :=
  (getProviderFromModel_spec "mixtral-8x7b-32768").1 (Or.inr (by decide))

/-! ### C7: flattening chat history -/

/-- C7, counterexample.  A turn whose response is present but empty is
falsy in the JavaScript test `if (msg.response)`, so processChatHistory
emits only the user message for it, not the assistant message the claim
(assistant message exactly when the turn has a response) prescribes. -/
theorem processChatHistory_empty_response_cex :
    processChatHistory (some ⟨[⟨"a", some ""⟩]⟩) = [⟨"user", "a"⟩] ∧
      processChatHistory (some ⟨[⟨"a", some ""⟩]⟩) ≠
        [⟨"user", "a"⟩, ⟨"assistant", ""⟩] := by
  decide

/-- The per-turn message list prescribed by the amended claim: the user
message, then an assistant message exactly when the turn has a non-empty
response. -/
def specTurnMessages (t : ChatTurn) : List Message :=
  match t.response with
  | some r =>
    if r = "" then [Message.mk "user" t.user]
    else [Message.mk "user" t.user, Message.mk "assistant" r]
  | none => [Message.mk "user" t.user]

/-- C7, amended.  processChatHistory returns, in order, for each turn a
user-role message followed by an assistant-role message exactly when that
turn has a non-empty response; on the history
messages = [(user a, response b), (user c)] it yields exactly the three
messages user a, assistant b, user c, and a null history yields no
messages. -/
theorem processChatHistory_flatten_spec :
    (∀ h : ChatHistory,
        processChatHistory (some h) = (h.messages.map specTurnMessages).flatten) ∧
      processChatHistory (some ⟨[⟨"a", some "b"⟩, ⟨"c", none⟩]⟩) =
        [⟨"user", "a"⟩, ⟨"assistant", "b"⟩, ⟨"user", "c"⟩] ∧
      processChatHistory none = [] := by
  refine ⟨?_, by decide, rfl⟩
  intro h
  show processTurns h.messages = _
  induction h.messages with
  | nil => rfl
  | cons t rest ih =>
    cases ht : t.response with
    | none => simp [processTurns, specTurnMessages, ht, ih]
    | some r =>
      by_cases hr : r = "" <;>
        simp [processTurns, specTurnMessages, ht, hr, ih]

/-! ### C8: strategy tables only name registered models -/

/-- C8.  For every supported model-selection strategy and every defined
complexity bucket, the model identifier resolved by the ModelManager is a
key present in MODEL_REGISTRY. -/
theorem getModelForComplexity_mem_registry (strategy : SelectionStrategy)
    (complexity : Complexity) :
    (MODEL_REGISTRY.lookup (getModelForComplexity strategy complexity)).isSome =
      true := by
  cases strategy <;> cases complexity <;> rfl

/-! ### C9: cost estimation -/

/-- C9.  estimateCost charges inputTokens/1000 times the per-1k-token cost
of the resolved model plus outputTokens/1000 times twice that cost; an
unknown model identifier fails over to the default llama3-8b-8192 cost
configuration; and estimateCost("llama3-8b-8192", 1000, 1000) is exactly
0.00005 + 0.0001 (the rational model makes the floating-point tolerance
exact). -/
theorem estimateCost_spec :
    (∀ (modelId : String) (inputTokens outputTokens : Rat),
        estimateCost modelId inputTokens outputTokens =
          inputTokens / 1000 * (getModelConfig modelId).costPer1kTokens +
            outputTokens / 1000 * ((getModelConfig modelId).costPer1kTokens * 2)) ∧
    (∀ (modelId : String) (inputTokens outputTokens : Rat),
        MODEL_REGISTRY.lookup modelId = none →
          estimateCost modelId inputTokens outputTokens =
            estimateCost "llama3-8b-8192" inputTokens outputTokens) ∧
    estimateCost "llama3-8b-8192" 1000 1000 = 5 / 100000 + 1 / 10000 := by
  refine ⟨fun _ _ _ => rfl, ?_, ?_⟩
  · intro modelId inputTokens outputTokens hnone
    unfold estimateCost getModelConfig
    rw [hnone]
    rfl
  · show (1000 : Rat) / 1000 * (5 / 100000) + 1000 / 1000 * (5 / 100000 * 2) =
      5 / 100000 + 1 / 10000
    norm_num

/-- C9, witness: an identifier absent from the registry is priced with the
default model configuration. -/
theorem estimateCost_spec_witness :
    estimateCost "unknown-model" 2000 500 =
      estimateCost "llama3-8b-8192" 2000 500 :=
  estimateCost_spec.2.1 "unknown-model" 2000 500 (by decide)

/-! ### C10: the classifier always selects llama3-8b-8192 -/

/-- C10.  getModelForTask returns the constant llama3-8b-8192 for every
task and complexity, so the model field of every classification produced
by classifyQuery on non-empty text is llama3-8b-8192, for every selection
strategy and every outcome of the enrichment call. -/
theorem classifyQuery_model_constant :
    (∀ (task : String) (complexity : Complexity),
        getModelForTask task complexity = "llama3-8b-8192") ∧
    (∀ (strategy : SelectionStrategy) (queryText : String)
        (outcome : ClassifyOutcome), queryText ≠ "" →
          (classifyQuery strategy queryText outcome).model = "llama3-8b-8192") := by
  refine ⟨fun _ _ => rfl, ?_⟩
  intro strategy queryText outcome hne
  simp [classifyQuery, hne, getModelForTask]

/-- C10, witness: under the quality-optimized strategy (whose SHORT model
is llama3-70b-8192) a non-empty query is still classified with model
llama3-8b-8192. -/
theorem classifyQuery_model_constant_witness :
    (classifyQuery .QUALITY_OPTIMIZED "What is the weather"
        .respOkNoChoices).model = "llama3-8b-8192" :=
  classifyQuery_model_constant.2 .QUALITY_OPTIMIZED "What is the weather"
    .respOkNoChoices (by decide)

end AiLib
